import Mathlib

/-!
Verification of the vpGenericFeature component of the ViSP repository
(src/src/visual-feature/vpGenericFeature.h).

The repository ships only the class header: it declares the data members
(an interaction matrix L, an error vector err, a three-valued freshness
flag errorStatus), the constructor taking an explicit dimension, the two
error-computation overloads, the selection-based interaction accessor, the
setters, print, display and duplicate.  The inline body of
getInteractionMatrix (it returns the stored L by value) and the const
qualifiers on interaction, print, display, duplicate and
getInteractionMatrix are part of the header; every other method body is
absent from the sources, so those bodies are modelled from the
specification, as flagged in each doc comment.

Real numbers are modelled by the rationals, matrices by lists of rows and
the camera velocity width is fixed at six columns, as in the data model.
A mutating method takes the feature state and returns the successor
state (inside Except when the method can signal an error condition); a
const-qualified method returns its result paired with the unchanged state.
-/

namespace ViSP

/-- Error conditions surfaced by the component: a shape or length
inconsistent with the fixed dimension (DimensionMismatch), or a read of an
injected error that is absent or already consumed (NotReady). -/
inductive FeatureError where
  | dimensionMismatch
  | notReady
deriving DecidableEq, Repr

/-- The three-valued error-freshness flag, with the constructor names of
the private enum vpGenericFeatureErrorType in the header (including the
spelling of its first constant). -/
inductive ErrorStatus where
  | errorNotInitalized
  | errorInitialized
  | errorHasToBeUpdated
deriving DecidableEq, Repr

/-- A selection mask over feature components: either the reserved value
selecting every component, or a bitmask whose bit i selects component i. -/
inductive Selection where
  | all
  | mask (m : Nat)
deriving DecidableEq, Repr

/-- Whether component i participates under the selection. -/
def Selection.selects : Selection → Nat → Bool
  | .all, _ => true
  | .mask m, i => m.testBit i

/-- The selected component indices below the dimension, in ascending
order. -/
def selectedIndices (sel : Selection) (dim : Nat) : List Nat :=
  (List.range dim).filter (fun i => sel.selects i)

/-- Restriction of a component vector to the selected indices, in
ascending index order. -/
def restrictTo (sel : Selection) (dim : Nat) (v : List ℚ) : List ℚ :=
  (selectedIndices sel dim).map (fun i => v.getD i 0)

/-- The feature state: fixed dimension, feature vector s, interaction
matrix L (rows of six entries), injected error vector err and the
freshness flag, matching the members declared in the header. -/
structure vpGenericFeature where
  dim : Nat
  s : List ℚ
  L : List (List ℚ)
  err : List ℚ
  errorStatus : ErrorStatus
deriving DecidableEq, Repr

namespace vpGenericFeature

/-- Modelled from the spec: construction takes an explicit dimension and
allocates s and L as zero-valued containers of the correct shape (length
dim, shape dim by six), with the freshness flag NotInitialized.  The body
of the constructor vpGenericFeature(int dim) is not in the sources. -/
def construct (dim : Nat) : vpGenericFeature :=
  { dim := dim
  , s := List.replicate dim 0
  , L := List.replicate dim (List.replicate 6 0)
  , err := List.replicate dim 0
  , errorStatus := .errorNotInitalized }

/-- Modelled from the spec: setInteractionMatrix accepts a dim by six
matrix, fails with DimensionMismatch when the row count differs from dim
or the column count differs from six, and otherwise replaces the stored L.
The body of setInteractionMatrix is not in the sources. -/
def setInteractionMatrix (f : vpGenericFeature) (M : List (List ℚ)) :
    Except FeatureError vpGenericFeature :=
  if M.length = f.dim ∧ ∀ r ∈ M, r.length = 6 then
    .ok { f with L := M }
  else
    .error .dimensionMismatch

/-- From the header (inline body, line 207): getInteractionMatrix returns
the stored L by value, bypassing selection; the method is const, so the
feature state is unchanged. -/
def getInteractionMatrix (f : vpGenericFeature) :
    List (List ℚ) × vpGenericFeature :=
  (f.L, f)

/-- Modelled from the spec: the vector form of set_s replaces the stored
feature vector; per the error-handling design, a length inconsistent with
the fixed dimension fails with DimensionMismatch.  The body of
set_s(const vpColVector) is not in the sources. -/
def set_s (f : vpGenericFeature) (v : List ℚ) :
    Except FeatureError vpGenericFeature :=
  if v.length = f.dim then .ok { f with s := v }
  else .error .dimensionMismatch

/-- Modelled from the spec: the one-scalar convenience overload of set_s;
fails with DimensionMismatch unless the dimension is one. -/
def set_s1 (f : vpGenericFeature) (s0 : ℚ) :
    Except FeatureError vpGenericFeature :=
  if f.dim = 1 then .ok { f with s := [s0] }
  else .error .dimensionMismatch

/-- Modelled from the spec: the two-scalar convenience overload of set_s;
fails with DimensionMismatch unless the dimension is two. -/
def set_s2 (f : vpGenericFeature) (s0 s1 : ℚ) :
    Except FeatureError vpGenericFeature :=
  if f.dim = 2 then .ok { f with s := [s0, s1] }
  else .error .dimensionMismatch

/-- Modelled from the spec: the three-scalar convenience overload of
set_s; fails with DimensionMismatch unless the dimension is three. -/
def set_s3 (f : vpGenericFeature) (s0 s1 s2 : ℚ) :
    Except FeatureError vpGenericFeature :=
  if f.dim = 3 then .ok { f with s := [s0, s1, s2] }
  else .error .dimensionMismatch

/-- Modelled from the spec: setError injects a pre-computed error vector,
setting the freshness flag to Initialized; a length different from the
dimension fails with DimensionMismatch.  The body of setError is not in
the sources. -/
def setError (f : vpGenericFeature) (e : List ℚ) :
    Except FeatureError vpGenericFeature :=
  if e.length = f.dim then
    .ok { f with err := e, errorStatus := .errorInitialized }
  else .error .dimensionMismatch

/-- Modelled from the spec: the injected-error form of error(select).
Valid only while the freshness flag is Initialized: it then returns the
injected error restricted to the selection and re-arms the flag to
HasToBeUpdated; in the NotInitialized and HasToBeUpdated states it fails
with NotReady.  The body of error(const int) is not in the sources. -/
def error (f : vpGenericFeature) (sel : Selection) :
    Except FeatureError (List ℚ × vpGenericFeature) :=
  match f.errorStatus with
  | .errorInitialized =>
      .ok (restrictTo sel f.dim f.err,
           { f with errorStatus := .errorHasToBeUpdated })
  | .errorNotInitalized => Except.error .notReady
  | .errorHasToBeUpdated => Except.error .notReady

/-- Modelled from the spec: the desired-feature form
error(s_star, select) computes s minus the desired vector component-wise
over the selection, ignoring the injected-error mechanism and leaving the
freshness flag (and every other member) untouched; a desired vector whose
length differs from the dimension fails with DimensionMismatch.  The body
of error(const vpBasicFeature, const int) is not in the sources. -/
def error_s_star (f : vpGenericFeature) (sStar : List ℚ) (sel : Selection) :
    Except FeatureError (List ℚ × vpGenericFeature) :=
  if sStar.length = f.dim then
    .ok (restrictTo sel f.dim (List.zipWith (fun a b => a - b) f.s sStar), f)
  else .error .dimensionMismatch

/-- Modelled from the spec: interaction(select) returns the stored L
restricted to the rows named by the selection, in ascending index order,
all six columns; the method is const in the header (line 182), so the
feature state is unchanged and no freshness tracking occurs. -/
def interaction (f : vpGenericFeature) (sel : Selection) :
    List (List ℚ) × vpGenericFeature :=
  ((selectedIndices sel f.dim).map (fun i => f.L.getD i (List.replicate 6 0)),
   f)

/-- Modelled from the spec: print emits a human-readable dump of s, L and
the error state restricted to the selection; the emitted data is modelled
as the returned triple, and the method is const in the header (line 189),
so the feature state is unchanged. -/
def print (f : vpGenericFeature) (sel : Selection) :
    (List ℚ × List (List ℚ) × List ℚ) × vpGenericFeature :=
  ((restrictTo sel f.dim f.s,
    (selectedIndices sel f.dim).map (fun i => f.L.getD i (List.replicate 6 0)),
    restrictTo sel f.dim f.err),
   f)

/-- Modelled from the spec: display is a documented no-op for the generic
feature; both overloads draw nothing, so the image buffer and the feature
state (the method is const, lines 215 to 220) are returned unchanged.  The
image type is abstract, covering both the grayscale and the RGBa
overload. -/
def display {Img : Type} (f : vpGenericFeature) (I : Img) :
    Img × vpGenericFeature :=
  (I, f)

/-- Modelled from the spec: duplicate produces an independent copy with
identical dimension, s, L, err and freshness state.  The body of
duplicate is not in the sources. -/
def duplicate (f : vpGenericFeature) : vpGenericFeature :=
  { dim := f.dim
  , s := f.s
  , L := f.L
  , err := f.err
  , errorStatus := f.errorStatus }

end vpGenericFeature

open vpGenericFeature

/-! Helper lemmas about selection masks. -/

/-- The reserved ALL selection names every component index below the
dimension. -/
theorem selectedIndices_all (n : Nat) :
    selectedIndices Selection.all n = List.range n := by
  simp [selectedIndices, Selection.selects]

/-- Selected indices are listed in strictly ascending order. -/
theorem selectedIndices_sorted (sel : Selection) (n : Nat) :
    List.Pairwise (· < ·) (selectedIndices sel n) :=
  (List.pairwise_lt_range n).filter _

/-- Membership in the selected-index list. -/
theorem mem_selectedIndices {sel : Selection} {n i : Nat} :
    i ∈ selectedIndices sel n ↔ i < n ∧ sel.selects i = true := by
  simp [selectedIndices, List.mem_filter, List.mem_range]

/-- Reading every position of a list back with a default reproduces the
list. -/
theorem getD_map_range {α : Type} (l : List α) (d : α) :
    (List.range l.length).map (fun i => l.getD i d) = l := by
  induction l with
  | nil => rfl
  | cons a t ih =>
    rw [List.length_cons, List.range_succ_eq_map, List.map_cons, List.map_map]
    simp only [Function.comp_def, List.getD_cons_succ, List.getD_cons_zero]
    rw [ih]

/-! Claim theorems. -/

/-- C1: the injected-error protocol obeys the re-arm state machine: after
construction the freshness flag is NotInitialized and the injected form of
error fails with NotReady; setError with a well-sized vector e sets the
flag to Initialized; a subsequent error call returns exactly e restricted
to the selection and moves the flag to HasToBeUpdated, so an immediate
second error call fails with NotReady, until another setError restores
success. -/
theorem errorRearmStateMachine (d : Nat) (f : vpGenericFeature)
    (e e2 : List ℚ) (sel sel2 : Selection)
    (he : e.length = f.dim) (he2 : e2.length = f.dim) :
    (construct d).errorStatus = ErrorStatus.errorNotInitalized
    ∧ (construct d).error sel = Except.error FeatureError.notReady
    ∧ ∃ g g2, f.setError e = Except.ok g
        ∧ g.errorStatus = ErrorStatus.errorInitialized
        ∧ g.error sel = Except.ok (restrictTo sel f.dim e, g2)
        ∧ g2.errorStatus = ErrorStatus.errorHasToBeUpdated
        ∧ g2.error sel2 = Except.error FeatureError.notReady
        ∧ ∃ g3, g2.setError e2 = Except.ok g3
            ∧ g3.errorStatus = ErrorStatus.errorInitialized
            ∧ g3.error sel2 =
                Except.ok (restrictTo sel2 f.dim e2,
                  { g3 with errorStatus := ErrorStatus.errorHasToBeUpdated }) := by
  refine ⟨rfl, rfl,
    { f with err := e, errorStatus := ErrorStatus.errorInitialized },
    { f with err := e, errorStatus := ErrorStatus.errorHasToBeUpdated },
    ?_, rfl, rfl, rfl, rfl,
    { f with err := e2, errorStatus := ErrorStatus.errorInitialized },
    ?_, rfl, rfl⟩
  · simp [vpGenericFeature.setError, he]
  · simp [vpGenericFeature.setError, he2]

/-- Witness for C1 at a concrete instance of dimension one. -/
theorem errorRearmStateMachine_witness :
    ([(5:ℚ)].length = (construct 1).dim)
    ∧ ([(7:ℚ)].length = (construct 1).dim)
    ∧ ((construct 1).errorStatus = ErrorStatus.errorNotInitalized
      ∧ (construct 1).error Selection.all = Except.error FeatureError.notReady
      ∧ ∃ g g2, (construct 1).setError [(5:ℚ)] = Except.ok g
          ∧ g.errorStatus = ErrorStatus.errorInitialized
          ∧ g.error Selection.all =
              Except.ok (restrictTo Selection.all (construct 1).dim [(5:ℚ)], g2)
          ∧ g2.errorStatus = ErrorStatus.errorHasToBeUpdated
          ∧ g2.error Selection.all = Except.error FeatureError.notReady
          ∧ ∃ g3, g2.setError [(7:ℚ)] = Except.ok g3
              ∧ g3.errorStatus = ErrorStatus.errorInitialized
              ∧ g3.error Selection.all =
                  Except.ok (restrictTo Selection.all (construct 1).dim [(7:ℚ)],
                    { g3 with errorStatus := ErrorStatus.errorHasToBeUpdated })) :=
  ⟨rfl, rfl,
   errorRearmStateMachine 1 (construct 1) [5] [7] Selection.all Selection.all
     rfl rfl⟩

/-- C2: the desired-feature form of error returns the component-wise
subtraction of the desired vector from s, restricted to the selection, and
leaves the entire feature state (in particular the freshness flag)
untouched; a desired vector whose length differs from the dimension fails
with DimensionMismatch. -/
theorem errorDesiredFormSubtraction (f : vpGenericFeature) (sStar : List ℚ)
    (sel : Selection) (hs : f.s.length = f.dim) :
    (sStar.length = f.dim →
      f.error_s_star sStar sel =
        Except.ok ((selectedIndices sel f.dim).map
          (fun i => f.s.getD i 0 - sStar.getD i 0), f))
    ∧ (sStar.length ≠ f.dim →
      f.error_s_star sStar sel = Except.error FeatureError.dimensionMismatch) := by
  constructor
  · intro h
    simp only [vpGenericFeature.error_s_star, if_pos h]
    refine congrArg Except.ok (Prod.ext ?_ rfl)
    unfold restrictTo
    apply List.map_congr_left
    intro i hi
    have hin : i < f.dim := (mem_selectedIndices.mp hi).1
    have h1 : i < f.s.length := by rw [hs]; exact hin
    have h2 : i < sStar.length := by rw [h]; exact hin
    have hz : i < (List.zipWith (fun a b => a - b) f.s sStar).length := by
      rw [List.length_zipWith]; exact lt_min h1 h2
    rw [List.getD_eq_getElem _ _ hz, List.getElem_zipWith,
      List.getD_eq_getElem _ _ h1, List.getD_eq_getElem _ _ h2]
  · intro h
    simp [vpGenericFeature.error_s_star, h]

/-- Witness for C2 at a concrete instance of dimension two. -/
theorem errorDesiredFormSubtraction_witness :
    ((construct 2).s.length = (construct 2).dim)
    ∧ (([(1:ℚ), 5].length = (construct 2).dim →
        (construct 2).error_s_star [(1:ℚ), 5] Selection.all =
          Except.ok ((selectedIndices Selection.all (construct 2).dim).map
            (fun i => (construct 2).s.getD i 0 - [(1:ℚ), 5].getD i 0),
            construct 2))
      ∧ ([(1:ℚ), 5].length ≠ (construct 2).dim →
        (construct 2).error_s_star [(1:ℚ), 5] Selection.all =
          Except.error FeatureError.dimensionMismatch)) :=
  ⟨rfl, errorDesiredFormSubtraction (construct 2) [1, 5] Selection.all rfl⟩

/-- C3: for a stored interaction matrix of the declared shape, interaction
with a selection returns exactly one row per selected index, the selected
indices are the components under the dimension named by the mask listed in
strictly ascending order, row k of the result is row ik of L, and every
returned row keeps all six columns. -/
theorem interactionSelectionRows (f : vpGenericFeature) (sel : Selection)
    (hL : f.L.length = f.dim) (h6 : ∀ r ∈ f.L, r.length = 6) :
    (f.interaction sel).1.length = (selectedIndices sel f.dim).length
    ∧ List.Pairwise (· < ·) (selectedIndices sel f.dim)
    ∧ (∀ i, i ∈ selectedIndices sel f.dim ↔ i < f.dim ∧ sel.selects i = true)
    ∧ (∀ k : Nat, (f.interaction sel).1[k]? =
        ((selectedIndices sel f.dim)[k]?).bind (fun i : Nat => f.L[i]?))
    ∧ (∀ r ∈ (f.interaction sel).1, r.length = 6) := by
  refine ⟨by simp [vpGenericFeature.interaction],
    selectedIndices_sorted sel f.dim,
    fun i => mem_selectedIndices, ?_, ?_⟩
  · intro k
    simp only [vpGenericFeature.interaction]
    rw [List.getElem?_map]
    cases hk : (selectedIndices sel f.dim)[k]? with
    | none => rfl
    | some i =>
      obtain ⟨hklt, hi⟩ := List.getElem?_eq_some_iff.mp hk
      have hmem : i ∈ selectedIndices sel f.dim := hi ▸ List.getElem_mem hklt
      have hid : i < f.dim := (mem_selectedIndices.mp hmem).1
      have hiL : i < f.L.length := by rw [hL]; exact hid
      show some (f.L.getD i (List.replicate 6 0)) = f.L[i]?
      rw [List.getD_eq_getElem _ _ hiL, List.getElem?_eq_getElem hiL]
  · intro r hr
    simp only [vpGenericFeature.interaction, List.mem_map] at hr
    obtain ⟨i, hi, rfl⟩ := hr
    have hid : i < f.dim := (mem_selectedIndices.mp hi).1
    have hiL : i < f.L.length := by rw [hL]; exact hid
    rw [List.getD_eq_getElem _ _ hiL]
    exact h6 _ (List.getElem_mem hiL)

/-- Witness for C3 at a concrete feature of dimension two with the mask
selecting only component one. -/
theorem interactionSelectionRows_witness :
    ((construct 2).L.length = (construct 2).dim)
    ∧ (∀ r ∈ (construct 2).L, r.length = 6)
    ∧ (((construct 2).interaction (Selection.mask 2)).1.length =
        (selectedIndices (Selection.mask 2) (construct 2).dim).length
      ∧ List.Pairwise (· < ·) (selectedIndices (Selection.mask 2) (construct 2).dim)
      ∧ (∀ i, i ∈ selectedIndices (Selection.mask 2) (construct 2).dim ↔
          i < (construct 2).dim ∧ (Selection.mask 2).selects i = true)
      ∧ (∀ k : Nat, ((construct 2).interaction (Selection.mask 2)).1[k]? =
          ((selectedIndices (Selection.mask 2) (construct 2).dim)[k]?).bind
            (fun i : Nat => (construct 2).L[i]?))
      ∧ (∀ r ∈ ((construct 2).interaction (Selection.mask 2)).1, r.length = 6)) :=
  ⟨rfl, fun r hr => by rw [List.eq_of_mem_replicate hr]; rfl,
   interactionSelectionRows (construct 2) (Selection.mask 2) rfl
     (fun r hr => by rw [List.eq_of_mem_replicate hr]; rfl)⟩

/-- C4: setInteractionMatrix fails with DimensionMismatch exactly when the
supplied matrix is not of shape dim by six; with the correct shape it
succeeds, stores the matrix, and the stored value is returned whole by the
next interaction call with the ALL selection and by getInteractionMatrix
(round-trip). -/
theorem setInteractionMatrixRoundTrip (f : vpGenericFeature)
    (M : List (List ℚ)) :
    (f.setInteractionMatrix M = Except.error FeatureError.dimensionMismatch
      ↔ ¬(M.length = f.dim ∧ ∀ r ∈ M, r.length = 6))
    ∧ (M.length = f.dim → (∀ r ∈ M, r.length = 6) →
        f.setInteractionMatrix M = Except.ok { f with L := M }
        ∧ ({ f with L := M } : vpGenericFeature).L = M
        ∧ (({ f with L := M } : vpGenericFeature).interaction Selection.all).1 = M
        ∧ (({ f with L := M } : vpGenericFeature).getInteractionMatrix).1 = M) := by
  constructor
  · by_cases h : M.length = f.dim ∧ ∀ r ∈ M, r.length = 6
    · simp [vpGenericFeature.setInteractionMatrix, h]
    · simp only [vpGenericFeature.setInteractionMatrix, if_neg h]
      simpa using h
  · intro h1 h2
    refine ⟨by
      simp only [vpGenericFeature.setInteractionMatrix]
      rw [if_pos ⟨h1, h2⟩], rfl, ?_, rfl⟩
    simp only [vpGenericFeature.interaction]
    rw [selectedIndices_all]
    show (List.range f.dim).map (fun i => M.getD i (List.replicate 6 0)) = M
    rw [← h1]
    exact getD_map_range M _

/-- Witness for C4 at a concrete one-row matrix on a feature of dimension
one. -/
theorem setInteractionMatrixRoundTrip_witness :
    ((construct 1).setInteractionMatrix [[(1:ℚ), 2, 3, 4, 5, 6]] =
        Except.error FeatureError.dimensionMismatch
      ↔ ¬([[(1:ℚ), 2, 3, 4, 5, 6]].length = (construct 1).dim
          ∧ ∀ r ∈ [[(1:ℚ), 2, 3, 4, 5, 6]], r.length = 6))
    ∧ ([[(1:ℚ), 2, 3, 4, 5, 6]].length = (construct 1).dim →
        (∀ r ∈ [[(1:ℚ), 2, 3, 4, 5, 6]], r.length = 6) →
        (construct 1).setInteractionMatrix [[(1:ℚ), 2, 3, 4, 5, 6]] =
          Except.ok { construct 1 with L := [[(1:ℚ), 2, 3, 4, 5, 6]] }
        ∧ ({ construct 1 with L := [[(1:ℚ), 2, 3, 4, 5, 6]] } :
            vpGenericFeature).L = [[(1:ℚ), 2, 3, 4, 5, 6]]
        ∧ (({ construct 1 with L := [[(1:ℚ), 2, 3, 4, 5, 6]] } :
            vpGenericFeature).interaction Selection.all).1 =
            [[(1:ℚ), 2, 3, 4, 5, 6]]
        ∧ (({ construct 1 with L := [[(1:ℚ), 2, 3, 4, 5, 6]] } :
            vpGenericFeature).getInteractionMatrix).1 =
            [[(1:ℚ), 2, 3, 4, 5, 6]]) :=
  setInteractionMatrixRoundTrip (construct 1) [[(1:ℚ), 2, 3, 4, 5, 6]]

/-- C5: for every positive dimension, a freshly constructed feature
answers interaction with the ALL selection, before any setInteractionMatrix
call, with a matrix of the declared shape: dim rows of six columns each. -/
theorem freshInteractionShape (dim : Nat) (_h : 1 ≤ dim) :
    ((construct dim).interaction Selection.all).1.length = dim
    ∧ ∀ r ∈ ((construct dim).interaction Selection.all).1, r.length = 6 := by
  constructor
  · simp [vpGenericFeature.interaction, construct, selectedIndices_all]
  · intro r hr
    simp only [vpGenericFeature.interaction, List.mem_map] at hr
    obtain ⟨i, hi, rfl⟩ := hr
    have hid : i < dim := by
      simpa [construct, selectedIndices_all] using
        (mem_selectedIndices.mp hi).1
    show ((construct dim).L.getD i (List.replicate 6 0)).length = 6
    have : (construct dim).L.getD i (List.replicate 6 0) = List.replicate 6 0 := by
      simp [construct, List.getD_eq_getElem?_getD, List.getElem?_replicate, hid]
    rw [this]
    rfl

/-- Witness for C5 at dimension three. -/
theorem freshInteractionShape_witness :
    1 ≤ 3
    ∧ (((construct 3).interaction Selection.all).1.length = 3
      ∧ ∀ r ∈ ((construct 3).interaction Selection.all).1, r.length = 6) :=
  ⟨by decide, freshInteractionShape 3 (by decide)⟩

/-- C6: each scalar-argument set_s overload fails with DimensionMismatch
exactly when its arity differs from the dimension and otherwise replaces
the stored s; in particular on a feature of dimension three the two-scalar
overload fails with DimensionMismatch, also right after a successful
three-scalar call. -/
theorem set_sScalarArity (f : vpGenericFeature) (a b c : ℚ) :
    (f.set_s1 a = Except.error FeatureError.dimensionMismatch ↔ f.dim ≠ 1)
    ∧ (f.set_s2 a b = Except.error FeatureError.dimensionMismatch ↔ f.dim ≠ 2)
    ∧ (f.set_s3 a b c = Except.error FeatureError.dimensionMismatch ↔ f.dim ≠ 3)
    ∧ (f.dim = 1 → f.set_s1 a = Except.ok { f with s := [a] })
    ∧ (f.dim = 2 → f.set_s2 a b = Except.ok { f with s := [a, b] })
    ∧ (f.dim = 3 → f.set_s3 a b c = Except.ok { f with s := [a, b, c] })
    ∧ (f.dim = 3 → ∀ g, f.set_s3 a b c = Except.ok g →
        g.set_s2 a b = Except.error FeatureError.dimensionMismatch) := by
  refine ⟨?_, ?_, ?_, ?_, ?_, ?_, ?_⟩
  · by_cases h : f.dim = 1 <;> simp [vpGenericFeature.set_s1, h]
  · by_cases h : f.dim = 2 <;> simp [vpGenericFeature.set_s2, h]
  · by_cases h : f.dim = 3 <;> simp [vpGenericFeature.set_s3, h]
  · intro h; simp [vpGenericFeature.set_s1, h]
  · intro h; simp [vpGenericFeature.set_s2, h]
  · intro h; simp [vpGenericFeature.set_s3, h]
  · intro h g hg
    simp only [vpGenericFeature.set_s3, if_pos h] at hg
    cases hg
    simp [vpGenericFeature.set_s2, h]

/-- Witness for C6 on a feature of dimension three. -/
theorem set_sScalarArity_witness :
    ((construct 3).set_s1 1 = Except.error FeatureError.dimensionMismatch
      ↔ (construct 3).dim ≠ 1)
    ∧ ((construct 3).set_s2 1 2 = Except.error FeatureError.dimensionMismatch
      ↔ (construct 3).dim ≠ 2)
    ∧ ((construct 3).set_s3 1 2 3 = Except.error FeatureError.dimensionMismatch
      ↔ (construct 3).dim ≠ 3)
    ∧ ((construct 3).dim = 1 →
        (construct 3).set_s1 1 = Except.ok { construct 3 with s := [1] })
    ∧ ((construct 3).dim = 2 →
        (construct 3).set_s2 1 2 = Except.ok { construct 3 with s := [1, 2] })
    ∧ ((construct 3).dim = 3 →
        (construct 3).set_s3 1 2 3 =
          Except.ok { construct 3 with s := [1, 2, 3] })
    ∧ ((construct 3).dim = 3 → ∀ g, (construct 3).set_s3 1 2 3 = Except.ok g →
        g.set_s2 1 2 = Except.error FeatureError.dimensionMismatch) :=
  set_sScalarArity (construct 3) 1 2 3

/-- C7: duplicate produces a copy agreeing with the original on dimension,
s, L, err and freshness state, and the copy is independent: replacing the
s of the copy through set_s succeeds, changes only the s of the copy, and
when the new vector differs from the original s, the s of the mutated copy
no longer equals the s of the original, which keeps its value. -/
theorem duplicateIndependence (f : vpGenericFeature) (v : List ℚ)
    (hv : v.length = f.dim) :
    (f.duplicate.dim = f.dim ∧ f.duplicate.s = f.s ∧ f.duplicate.L = f.L
      ∧ f.duplicate.err = f.err ∧ f.duplicate.errorStatus = f.errorStatus)
    ∧ f.duplicate.set_s v = Except.ok { f.duplicate with s := v }
    ∧ ({ f.duplicate with s := v } : vpGenericFeature).L = f.L
    ∧ ({ f.duplicate with s := v } : vpGenericFeature).err = f.err
    ∧ ({ f.duplicate with s := v } : vpGenericFeature).errorStatus = f.errorStatus
    ∧ (v ≠ f.s → ({ f.duplicate with s := v } : vpGenericFeature).s ≠ f.s) := by
  refine ⟨⟨rfl, rfl, rfl, rfl, rfl⟩, ?_, rfl, rfl, rfl, fun h => h⟩
  simp [vpGenericFeature.set_s, vpGenericFeature.duplicate, hv]

/-- Witness for C7 on a feature of dimension two mutated to a fresh s. -/
theorem duplicateIndependence_witness :
    ([(4:ℚ), 5].length = (construct 2).dim)
    ∧ (((construct 2).duplicate.dim = (construct 2).dim
        ∧ (construct 2).duplicate.s = (construct 2).s
        ∧ (construct 2).duplicate.L = (construct 2).L
        ∧ (construct 2).duplicate.err = (construct 2).err
        ∧ (construct 2).duplicate.errorStatus = (construct 2).errorStatus)
      ∧ (construct 2).duplicate.set_s [(4:ℚ), 5] =
          Except.ok { (construct 2).duplicate with s := [(4:ℚ), 5] }
      ∧ ({ (construct 2).duplicate with s := [(4:ℚ), 5] } :
          vpGenericFeature).L = (construct 2).L
      ∧ ({ (construct 2).duplicate with s := [(4:ℚ), 5] } :
          vpGenericFeature).err = (construct 2).err
      ∧ ({ (construct 2).duplicate with s := [(4:ℚ), 5] } :
          vpGenericFeature).errorStatus = (construct 2).errorStatus
      ∧ ([(4:ℚ), 5] ≠ (construct 2).s →
          ({ (construct 2).duplicate with s := [(4:ℚ), 5] } :
            vpGenericFeature).s ≠ (construct 2).s)) :=
  ⟨rfl, duplicateIndependence (construct 2) [4, 5] rfl⟩

/-- C8: print and display never mutate the feature state; display is the
documented no-op, leaving even the image buffer untouched, and the only
effect of print is its emitted dump. -/
theorem printDisplayNoMutation (f : vpGenericFeature) (sel : Selection)
    {Img : Type} (I : Img) :
    (f.print sel).2 = f ∧ f.display I = (I, f) :=
  ⟨rfl, rfl⟩

/-- C9: interaction, being const-qualified, leaves the entire feature
state unchanged for every selection, in contrast with the injected form of
error, which on a successful read moves the freshness flag to
HasToBeUpdated and hence changes the state. -/
theorem interactionConstContrast (f : vpGenericFeature) (sel sel2 : Selection) :
    (f.interaction sel).2 = f
    ∧ (f.errorStatus = ErrorStatus.errorInitialized →
        f.error sel2 = Except.ok (restrictTo sel2 f.dim f.err,
          { f with errorStatus := ErrorStatus.errorHasToBeUpdated })
        ∧ ({ f with errorStatus := ErrorStatus.errorHasToBeUpdated } :
            vpGenericFeature) ≠ f) := by
  refine ⟨rfl, fun h => ⟨?_, ?_⟩⟩
  · obtain ⟨d, s0, L0, e0, st⟩ := f
    cases h
    rfl
  · intro hc
    have h2 : ErrorStatus.errorHasToBeUpdated = f.errorStatus :=
      congrArg vpGenericFeature.errorStatus hc
    rw [h] at h2
    exact ErrorStatus.noConfusion h2

/-- Witness for C9 on a concrete feature whose freshness flag is
Initialized. -/
theorem interactionConstContrast_witness :
    ((vpGenericFeature.mk 1 [0] [[0, 0, 0, 0, 0, 0]] [9]
        ErrorStatus.errorInitialized).errorStatus =
      ErrorStatus.errorInitialized)
    ∧ (((vpGenericFeature.mk 1 [0] [[0, 0, 0, 0, 0, 0]] [9]
          ErrorStatus.errorInitialized).interaction Selection.all).2 =
        vpGenericFeature.mk 1 [0] [[0, 0, 0, 0, 0, 0]] [9]
          ErrorStatus.errorInitialized
      ∧ ((vpGenericFeature.mk 1 [0] [[0, 0, 0, 0, 0, 0]] [9]
            ErrorStatus.errorInitialized).errorStatus =
          ErrorStatus.errorInitialized →
          (vpGenericFeature.mk 1 [0] [[0, 0, 0, 0, 0, 0]] [9]
            ErrorStatus.errorInitialized).error (Selection.mask 1) =
            Except.ok (restrictTo (Selection.mask 1)
              (vpGenericFeature.mk 1 [0] [[0, 0, 0, 0, 0, 0]] [9]
                ErrorStatus.errorInitialized).dim
              (vpGenericFeature.mk 1 [0] [[0, 0, 0, 0, 0, 0]] [9]
                ErrorStatus.errorInitialized).err,
              { vpGenericFeature.mk 1 [0] [[0, 0, 0, 0, 0, 0]] [9]
                  ErrorStatus.errorInitialized with
                errorStatus := ErrorStatus.errorHasToBeUpdated })
          ∧ ({ vpGenericFeature.mk 1 [0] [[0, 0, 0, 0, 0, 0]] [9]
                ErrorStatus.errorInitialized with
              errorStatus := ErrorStatus.errorHasToBeUpdated } :
              vpGenericFeature) ≠
            vpGenericFeature.mk 1 [0] [[0, 0, 0, 0, 0, 0]] [9]
              ErrorStatus.errorInitialized)) :=
  ⟨rfl, interactionConstContrast
    (vpGenericFeature.mk 1 [0] [[0, 0, 0, 0, 0, 0]] [9]
      ErrorStatus.errorInitialized) Selection.all (Selection.mask 1)⟩

/-- C10: getInteractionMatrix returns the full stored L, bypassing
selection, without mutating the feature, and two successive calls with no
intervening setInteractionMatrix return equal matrices. -/
theorem getInteractionMatrixBypass (f : vpGenericFeature) :
    (f.getInteractionMatrix).1 = f.L
    ∧ (f.getInteractionMatrix).2 = f
    ∧ ((f.getInteractionMatrix).2.getInteractionMatrix).1 =
        (f.getInteractionMatrix).1 :=
  ⟨rfl, rfl, rfl⟩

end ViSP
